import Mathlib

/-!
# Ovoo web UI: the two fetch wrappers

A shallow embedding of `webui/src/utils/api.js` (`apiFetch`) and
`webui/src/utils/auth.js` (`fetchWithAuth`).

* A JavaScript object is embedded as the list of its own properties in
  insertion order.  An object literal is evaluated as ECMAScript does: start
  from the empty object, and for each item in source order either define the
  property (`k: v`, CreateDataProperty: overwrite in place or append) or copy
  the own properties of the spread operand (`...o`, CopyDataProperties).
  The special ordering of integer-like keys is not modelled; nothing below
  depends on the order of properties.
* An `async` function is embedded as a function from the log of host effects
  performed so far to the settlement of the returned promise together with the
  extended log.  `await` of a rejected promise throws its reason.
* The host (the browser) is a capability: the transport behind `fetch` is a
  parameter, and `window.location.reload`, `window.dispatchEvent` and
  `console.error` append to the effect log.
-/

namespace Ovoo

/-! ## Data model -/

/-- JavaScript values that can occur in a request options object. Numbers are
restricted to integral ones. -/
inductive JSVal where
  | undefined
  | null
  | bool (b : Bool)
  | num (n : Int)
  | str (s : String)
  | obj (props : List (String × JSVal))

/-- An object: its own properties in insertion order. -/
abbrev Obj := List (String × JSVal)

/-- The empty object literal. -/
def Obj.empty : Obj := []

/-- Property read `o[k]`; `none` when the object has no own property `k`. -/
def Obj.get : Obj → String → Option JSVal
  | [], _ => none
  | (k1, v1) :: rest, k => if k1 = k then some v1 else Obj.get rest k

/-- Defining the property `k: v` (CreateDataProperty): an existing property is
overwritten in place, a new one is appended. -/
def Obj.set : Obj → String → JSVal → Obj
  | [], k, v => [(k, v)]
  | (k1, v1) :: rest, k, v =>
    if k1 = k then (k1, v) :: rest else (k1, v1) :: Obj.set rest k v

/-- The own property keys of an object, each once, in order. -/
def Obj.ownKeys : Obj → List String
  | [] => []
  | (k1, _) :: rest => k1 :: (Obj.ownKeys rest).filter (fun k => k ≠ k1)

/-- The spread item `...src` of an object literal whose value so far is
`target` (CopyDataProperties): for each own key of `src` in order, read the
value from `src` and define it on the target. -/
def Obj.spread (target src : Obj) : Obj :=
  (Obj.ownKeys src).foldl
    (fun acc k =>
      match Obj.get src k with
      | some v => Obj.set acc k v
      | none => acc)
    target

/-- The part of a `Response` the wrappers and their callers observe. -/
structure Response where
  status : Nat
  statusText : String
  body : String
  deriving DecidableEq, Repr

/-- A thrown JavaScript error value. -/
structure JSError where
  name : String
  message : String
  deriving DecidableEq, Repr

/-- The expression `new Error(message)`. -/
def JSError.new (message : String) : JSError :=
  { name := "Error", message := message }

/-- A DOM `CustomEvent`; `detail` is its payload. -/
structure CustomEvent where
  type : String
  detail : JSVal

/-- The expression `new CustomEvent(type)`: without an init dictionary the
payload `detail` is `null`. -/
def CustomEvent.new (type : String) : CustomEvent :=
  { type := type, detail := JSVal.null }

/-- An argument of a `console.error` call. -/
inductive LogArg where
  | str (s : String)
  | error (e : JSError)
  deriving DecidableEq, Repr

/-- Host effects, in the order they are performed. -/
inductive Effect where
  | fetch (url : String) (init : Obj)
  | reload
  | dispatchEvent (ev : CustomEvent)
  | consoleError (args : List LogArg)

/-- Settlement of a promise. -/
inductive Settled (α : Type) where
  | fulfilled (value : α)
  | rejected (reason : JSError)

/-- The transport behind the global `fetch`: given the effects performed so far
(so it may answer differently from one call to the next), the URL and the init
object, the settlement of the promise `fetch` returns. -/
abbrev Transport := List Effect → String → Obj → Settled Response

/-! ## Async computations over the host -/

/-- An async computation: from the effect log so far to the settlement and the
extended log. -/
def Async (α : Type) : Type := List Effect → Settled α × List Effect

/-- Normal completion with a value. -/
def Async.pure {α : Type} (a : α) : Async α := fun w => (Settled.fulfilled a, w)

/-- Sequencing: a rejection of the first part skips the continuation. -/
def Async.bind {α β : Type} (m : Async α) (f : α → Async β) : Async β := fun w =>
  match m w with
  | (Settled.fulfilled a, w1) => f a w1
  | (Settled.rejected e, w1) => (Settled.rejected e, w1)

/-- The statement `throw e`. -/
def Async.throw {α : Type} (e : JSError) : Async α := fun w => (Settled.rejected e, w)

/-- The statement `try { body } catch (err) { handler }`. -/
def Async.tryCatch {α : Type} (body : Async α) (handler : JSError → Async α) : Async α :=
  fun w =>
    match body w with
    | (Settled.fulfilled a, w1) => (Settled.fulfilled a, w1)
    | (Settled.rejected e, w1) => handler e w1

instance : Monad Async where
  pure := Async.pure
  bind := Async.bind

/-- Perform one host effect. -/
def emit (e : Effect) : Async Unit := fun w => (Settled.fulfilled (), w ++ [e])

/-- The expression `await fetch(url, init)`: the call is recorded, and the
transport's settlement is the result (a rejection is thrown). -/
def awaitFetch (T : Transport) (url : String) (init : Obj) : Async Response :=
  fun w => (T w url init, w ++ [Effect.fetch url init])

/-- The call `window.location.reload()`. -/
def windowLocationReload : Async Unit := emit Effect.reload

/-- The call `window.dispatchEvent(ev)`. -/
def windowDispatchEvent (ev : CustomEvent) : Async Unit := emit (Effect.dispatchEvent ev)

/-- The call `console.error(...args)`. -/
def consoleError (args : List LogArg) : Async Unit := emit (Effect.consoleError args)

/-! ## The wrappers -/

/-- The init object of `apiFetch`: `{ ...options, credentials: 'include' }`. -/
def apiFetchInit (options : Obj) : Obj :=
  (Obj.empty.spread options).set "credentials" (JSVal.str "include")

/-- Embedding of `apiFetch(url, options = {})`; `options = none` is an omitted
(undefined) argument, which takes the default `{}`.  The result `none` is
`undefined`. -/
def apiFetch (T : Transport) (url : String) (options : Option Obj) :
    Async (Option Response) := do
  let options := options.getD []
  let res ← awaitFetch T url (apiFetchInit options)
  if res.status = 401 then
    windowLocationReload
    return none
  return some res

/-- The init object of `fetchWithAuth`:
`{ credentials: 'include', headers: { 'Content-Type': 'application/json' }, ...options }`. -/
def fetchWithAuthInit (options : Obj) : Obj :=
  ((Obj.empty.set "credentials" (JSVal.str "include")).set "headers"
    (JSVal.obj (Obj.empty.set "Content-Type" (JSVal.str "application/json")))).spread options

/-- Embedding of `fetchWithAuth(url, options = {})`; `options = none` is an
omitted (undefined) argument, which takes the default `{}`. -/
def fetchWithAuth (T : Transport) (url : String) (options : Option Obj) :
    Async Response :=
  let options := options.getD []
  Async.tryCatch
    (do
      let response ← awaitFetch T url (fetchWithAuthInit options)
      if response.status = 401 then
        windowDispatchEvent (CustomEvent.new "unauthorized")
        Async.throw (JSError.new "Unauthorized")
      return response)
    (fun err => do
      consoleError [LogArg.str "Fetch error:", LogArg.error err]
      Async.throw err)

/-! ## Observations on the effect log -/

/-- Is the effect a transport call? -/
def Effect.isFetch : Effect → Bool
  | Effect.fetch _ _ => true
  | _ => false

/-- Is the effect a page reload? -/
def Effect.isReload : Effect → Bool
  | Effect.reload => true
  | _ => false

/-- Is the effect a dispatched event? -/
def Effect.isDispatch : Effect → Bool
  | Effect.dispatchEvent _ => true
  | _ => false

/-- Is the effect a `console.error` line? -/
def Effect.isLog : Effect → Bool
  | Effect.consoleError _ => true
  | _ => false

/-- The effects a run starting from log `w` has added to it. -/
def effectsSince {α : Type} (w : List Effect) (run : Settled α × List Effect) : List Effect :=
  run.2.drop w.length

/-! ## Sample hosts and inputs -/

/-- A transport that always resolves with the response `r`. -/
def respond (r : Response) : Transport := fun _ _ _ => Settled.fulfilled r

/-- A transport that always fails with the error `e`. -/
def failWith (e : JSError) : Transport := fun _ _ _ => Settled.rejected e

/-- The response of the scenario `/api/ping`: status 200, body `{"ok":true}`. -/
def pingOk : Response := { status := 200, statusText := "OK", body := "\x7b\"ok\":true\x7d" }

/-- A 401 response. -/
def unauthorized401 : Response := { status := 401, statusText := "Unauthorized", body := "" }

/-- A 500 response. -/
def serverError500 : Response :=
  { status := 500, statusText := "Internal Server Error", body := "" }

/-- The error a browser raises when the network is unreachable. -/
def networkError : JSError := { name := "TypeError", message := "Failed to fetch" }

/-- A stateful transport: the session is expired on the first call (401) and
valid on every later call (200). -/
def expiredThenOk : Transport := fun w _ _ =>
  if w.any Effect.isFetch then Settled.fulfilled pingOk else Settled.fulfilled unauthorized401

/-- Caller options that ask for credentials to be omitted. -/
def omitCredentials : Obj := [("method", JSVal.str "POST"), ("credentials", JSVal.str "omit")]

/-- Caller options with a headers object of their own. -/
def ownHeaders : Obj :=
  [("method", JSVal.str "POST"), ("headers", JSVal.obj [("Accept", JSVal.str "text/plain")])]

/-! ## Basic lemmas -/

theorem Obj.get_set_same (o : Obj) (k : String) (v : JSVal) :
    Obj.get (Obj.set o k v) k = some v := by
  induction o with
  | nil => simp [Obj.set, Obj.get]
  | cons p rest ih =>
    obtain ⟨k1, v1⟩ := p
    by_cases h : k1 = k
    · simp [Obj.set, Obj.get, h]
    · simp [Obj.set, Obj.get, h, ih]

theorem Obj.get_set_other (o : Obj) (k k2 : String) (v : JSVal) (hk : k2 ≠ k) :
    Obj.get (Obj.set o k v) k2 = Obj.get o k2 := by
  induction o with
  | nil => simp [Obj.set, Obj.get, Ne.symm hk]
  | cons p rest ih =>
    obtain ⟨k1, v1⟩ := p
    by_cases h : k1 = k
    · subst h
      simp [Obj.set, Obj.get, Ne.symm hk]
    · by_cases h2 : k1 = k2
      · subst h2
        simp [Obj.set, Obj.get, h]
      · simp [Obj.set, Obj.get, h, h2, ih]

theorem Obj.get_eq_none_of_not_mem_ownKeys (o : Obj) (k : String)
    (hk : k ∉ Obj.ownKeys o) : Obj.get o k = none := by
  induction o with
  | nil => rfl
  | cons p rest ih =>
    obtain ⟨k1, v1⟩ := p
    simp only [Obj.ownKeys, List.mem_cons, List.mem_filter, not_or, not_and] at hk
    obtain ⟨h1, h2⟩ := hk
    have h3 : k ∉ Obj.ownKeys rest := fun hm => h2 hm (by simpa using h1)
    simp [Obj.get, Ne.symm h1, ih h3]

theorem Obj.get_foldl_copy (src : Obj) (k : String) (ks : List String) (target : Obj) :
    Obj.get (ks.foldl
        (fun acc k0 =>
          match Obj.get src k0 with
          | some v => Obj.set acc k0 v
          | none => acc)
        target) k =
      if k ∈ ks then (Obj.get src k).orElse (fun _ => Obj.get target k)
      else Obj.get target k := by
  induction ks generalizing target with
  | nil => simp
  | cons k0 ks ih =>
    rw [List.foldl_cons, ih]
    by_cases h0 : k = k0
    · subst h0
      cases hs : Obj.get src k with
      | none => simp
      | some v => simp [Obj.get_set_same]
    · have hstep : Obj.get (match Obj.get src k0 with
          | some v => Obj.set target k0 v
          | none => target) k = Obj.get target k := by
        cases Obj.get src k0 with
        | none => rfl
        | some v => exact Obj.get_set_other target k0 k v h0
      rw [hstep]
      simp [h0]

theorem Obj.get_spread (target src : Obj) (k : String) :
    Obj.get (Obj.spread target src) k =
      (Obj.get src k).orElse (fun _ => Obj.get target k) := by
  rw [Obj.spread, Obj.get_foldl_copy]
  by_cases hk : k ∈ Obj.ownKeys src
  · simp [hk]
  · simp [hk, Obj.get_eq_none_of_not_mem_ownKeys src k hk]

theorem apiFetch_fulfilled (T : Transport) (url : String) (options : Option Obj)
    (w : List Effect) (r : Response)
    (h : T w url (apiFetchInit (options.getD [])) = Settled.fulfilled r) :
    apiFetch T url options w =
      if r.status = 401 then
        (Settled.fulfilled none,
          w ++ [Effect.fetch url (apiFetchInit (options.getD [])), Effect.reload])
      else
        (Settled.fulfilled (some r),
          w ++ [Effect.fetch url (apiFetchInit (options.getD []))]) := by
  simp only [apiFetch, bind, Async.bind, awaitFetch, h]
  split <;> simp [windowLocationReload, emit, pure, Async.pure, Async.bind]

theorem apiFetch_rejected (T : Transport) (url : String) (options : Option Obj)
    (w : List Effect) (e : JSError)
    (h : T w url (apiFetchInit (options.getD [])) = Settled.rejected e) :
    apiFetch T url options w =
      (Settled.rejected e, w ++ [Effect.fetch url (apiFetchInit (options.getD []))]) := by
  simp only [apiFetch, bind, Async.bind, awaitFetch, h]

theorem fetchWithAuth_fulfilled (T : Transport) (url : String) (options : Option Obj)
    (w : List Effect) (r : Response)
    (h : T w url (fetchWithAuthInit (options.getD [])) = Settled.fulfilled r) :
    fetchWithAuth T url options w =
      if r.status = 401 then
        (Settled.rejected (JSError.new "Unauthorized"),
          w ++ [Effect.fetch url (fetchWithAuthInit (options.getD [])),
                Effect.dispatchEvent (CustomEvent.new "unauthorized"),
                Effect.consoleError [LogArg.str "Fetch error:",
                  LogArg.error (JSError.new "Unauthorized")]])
      else
        (Settled.fulfilled r,
          w ++ [Effect.fetch url (fetchWithAuthInit (options.getD []))]) := by
  by_cases hs : r.status = 401 <;>
    simp [fetchWithAuth, Async.tryCatch, bind, Async.bind, awaitFetch, h, hs,
      windowDispatchEvent, consoleError, emit, pure, Async.pure, Async.throw]

theorem fetchWithAuth_rejected (T : Transport) (url : String) (options : Option Obj)
    (w : List Effect) (e : JSError)
    (h : T w url (fetchWithAuthInit (options.getD [])) = Settled.rejected e) :
    fetchWithAuth T url options w =
      (Settled.rejected e,
        w ++ [Effect.fetch url (fetchWithAuthInit (options.getD [])),
              Effect.consoleError [LogArg.str "Fetch error:", LogArg.error e]]) := by
  simp [fetchWithAuth, Async.tryCatch, bind, Async.bind, awaitFetch, h, consoleError, emit,
    Async.throw]

theorem apiFetch_log (T : Transport) (url : String) (options : Option Obj) (w : List Effect) :
    ∃ rest, (apiFetch T url options w).2 =
        w ++ Effect.fetch url (apiFetchInit (options.getD [])) :: rest ∧
      rest.countP Effect.isFetch = 0 := by
  cases h : T w url (apiFetchInit (options.getD [])) with
  | fulfilled r =>
    rw [apiFetch_fulfilled T url options w r h]
    by_cases hs : r.status = 401
    · exact ⟨[Effect.reload], by simp [hs], rfl⟩
    · exact ⟨[], by simp [hs], rfl⟩
  | rejected e =>
    rw [apiFetch_rejected T url options w e h]
    exact ⟨[], rfl, rfl⟩

theorem fetchWithAuth_log (T : Transport) (url : String) (options : Option Obj)
    (w : List Effect) :
    ∃ rest, (fetchWithAuth T url options w).2 =
        w ++ Effect.fetch url (fetchWithAuthInit (options.getD [])) :: rest ∧
      rest.countP Effect.isFetch = 0 := by
  cases h : T w url (fetchWithAuthInit (options.getD [])) with
  | fulfilled r =>
    rw [fetchWithAuth_fulfilled T url options w r h]
    by_cases hs : r.status = 401
    · exact ⟨[Effect.dispatchEvent (CustomEvent.new "unauthorized"),
        Effect.consoleError [LogArg.str "Fetch error:",
          LogArg.error (JSError.new "Unauthorized")]], by simp [hs], rfl⟩
    · exact ⟨[], by simp [hs], rfl⟩
  | rejected e =>
    rw [fetchWithAuth_rejected T url options w e h]
    exact ⟨[Effect.consoleError [LogArg.str "Fetch error:", LogArg.error e]], rfl, rfl⟩

theorem get_apiFetchInit_credentials (options : Obj) :
    Obj.get (apiFetchInit options) "credentials" = some (JSVal.str "include") :=
  Obj.get_set_same _ _ _

theorem get_apiFetchInit_other (options : Obj) (k : String) (hk : k ≠ "credentials") :
    Obj.get (apiFetchInit options) k = Obj.get options k := by
  rw [apiFetchInit, Obj.get_set_other _ _ _ _ hk, Obj.get_spread]
  cases Obj.get options k <;> rfl

theorem get_fetchWithAuthInit (options : Obj) (k : String) :
    Obj.get (fetchWithAuthInit options) k =
      (Obj.get options k).orElse (fun _ =>
        Obj.get [("credentials", JSVal.str "include"),
          ("headers", JSVal.obj [("Content-Type", JSVal.str "application/json")])] k) := by
  rw [fetchWithAuthInit, Obj.get_spread]
  rfl

/-! ## The claims -/

/-- C1: when the transport resolves with a response whose status is not 401
(whatever else it is: 200, 400, 403, 500, ...), `apiFetch` and `fetchWithAuth`
each resolve with that very response. -/
theorem C1_non401_response_passes_through (T : Transport) (url : String)
    (options : Option Obj) (w : List Effect) (r : Response) (h401 : r.status ≠ 401) :
    (T w url (apiFetchInit (options.getD [])) = Settled.fulfilled r →
      (apiFetch T url options w).1 = Settled.fulfilled (some r)) ∧
    (T w url (fetchWithAuthInit (options.getD [])) = Settled.fulfilled r →
      (fetchWithAuth T url options w).1 = Settled.fulfilled r) := by
  constructor
  · intro h
    rw [apiFetch_fulfilled T url options w r h]
    simp [h401]
  · intro h
    rw [fetchWithAuth_fulfilled T url options w r h]
    simp [h401]

/-- C1 at a concrete input: a status-500 response comes back from both wrappers. -/
theorem C1_witness :
    serverError500.status ≠ 401 ∧
    (apiFetch (respond serverError500) "/api/aliases" (some ownHeaders) []).1 =
      Settled.fulfilled (some serverError500) ∧
    (fetchWithAuth (respond serverError500) "/api/aliases" (some ownHeaders) []).1 =
      Settled.fulfilled serverError500 :=
  ⟨by decide,
   (C1_non401_response_passes_through (respond serverError500) "/api/aliases"
      (some ownHeaders) [] serverError500 (by decide)).1 rfl,
   (C1_non401_response_passes_through (respond serverError500) "/api/aliases"
      (some ownHeaders) [] serverError500 (by decide)).2 rfl⟩

/-- C2: when the transport resolves with a 401 response, `apiFetch` performs
the transport call and then exactly one page reload, and resolves with
`undefined` (no value, no error). -/
theorem C2_apiFetch_401_reloads_once (T : Transport) (url : String)
    (options : Option Obj) (w : List Effect) (r : Response)
    (hT : T w url (apiFetchInit (options.getD [])) = Settled.fulfilled r)
    (h401 : r.status = 401) :
    apiFetch T url options w =
      (Settled.fulfilled none,
        w ++ [Effect.fetch url (apiFetchInit (options.getD [])), Effect.reload]) ∧
    (effectsSince w (apiFetch T url options w)).countP Effect.isReload = 1 := by
  rw [apiFetch_fulfilled T url options w r hT]
  simp [h401, effectsSince, Effect.isReload]

/-- C2 at a concrete input: a 401 answer to `apiFetch("/api/aliases")`. -/
theorem C2_witness :
    apiFetch (respond unauthorized401) "/api/aliases" none [] =
      (Settled.fulfilled none,
        [Effect.fetch "/api/aliases" (apiFetchInit []), Effect.reload]) ∧
    (effectsSince [] (apiFetch (respond unauthorized401) "/api/aliases" none [])).countP
      Effect.isReload = 1 :=
  C2_apiFetch_401_reloads_once (respond unauthorized401) "/api/aliases" none []
    unauthorized401 rfl rfl

/-- C3: when the transport resolves with a 401 response, `fetchWithAuth`
dispatches exactly one event, named "unauthorized" and with no payload, and
then rejects with an error whose message is "Unauthorized"; it does not resolve
with the response (or with any value). -/
theorem C3_fetchWithAuth_401_dispatches_and_rejects (T : Transport) (url : String)
    (options : Option Obj) (w : List Effect) (r : Response)
    (hT : T w url (fetchWithAuthInit (options.getD [])) = Settled.fulfilled r)
    (h401 : r.status = 401) :
    (∃ e after, fetchWithAuth T url options w =
        (Settled.rejected e,
          w ++ Effect.fetch url (fetchWithAuthInit (options.getD [])) ::
            Effect.dispatchEvent { type := "unauthorized", detail := JSVal.null } :: after) ∧
      e.message = "Unauthorized" ∧ after.countP Effect.isDispatch = 0) ∧
    (effectsSince w (fetchWithAuth T url options w)).countP Effect.isDispatch = 1 ∧
    (∀ v, (fetchWithAuth T url options w).1 ≠ Settled.fulfilled v) := by
  rw [fetchWithAuth_fulfilled T url options w r hT]
  refine ⟨⟨JSError.new "Unauthorized",
    [Effect.consoleError [LogArg.str "Fetch error:",
      LogArg.error (JSError.new "Unauthorized")]], ?_, rfl, rfl⟩, ?_, ?_⟩
  · simp [h401, CustomEvent.new]
  · simp [h401, effectsSince, Effect.isDispatch]
  · simp [h401]

/-- C3 at a concrete input: a 401 answer to `fetchWithAuth("/api/aliases")`. -/
theorem C3_witness :
    (∃ e after, fetchWithAuth (respond unauthorized401) "/api/aliases" none [] =
        (Settled.rejected e,
          Effect.fetch "/api/aliases" (fetchWithAuthInit []) ::
            Effect.dispatchEvent { type := "unauthorized", detail := JSVal.null } :: after) ∧
      e.message = "Unauthorized" ∧ after.countP Effect.isDispatch = 0) ∧
    (effectsSince [] (fetchWithAuth (respond unauthorized401) "/api/aliases" none [])).countP
      Effect.isDispatch = 1 ∧
    (∀ v, (fetchWithAuth (respond unauthorized401) "/api/aliases" none []).1 ≠
      Settled.fulfilled v) :=
  C3_fetchWithAuth_401_dispatches_and_rejects (respond unauthorized401) "/api/aliases" none []
    unauthorized401 rfl rfl

/-- C4: on both failure paths of `fetchWithAuth` exactly one line is logged,
`console.error("Fetch error:", err)`, as the last effect, and the promise is
rejected with that same `err`.  On a transport failure `err` is the transport's
error and no event is dispatched; on a 401 `err` is `Error("Unauthorized")` and
the "unauthorized" event comes before the log line.  Every rejection of
`fetchWithAuth` has this shape. -/
theorem C4_fetchWithAuth_failure_logged_and_rethrown (T : Transport) (url : String)
    (options : Option Obj) (w : List Effect) :
    (∀ e, T w url (fetchWithAuthInit (options.getD [])) = Settled.rejected e →
      fetchWithAuth T url options w =
        (Settled.rejected e,
          w ++ [Effect.fetch url (fetchWithAuthInit (options.getD [])),
                Effect.consoleError [LogArg.str "Fetch error:", LogArg.error e]])) ∧
    (∀ r, T w url (fetchWithAuthInit (options.getD [])) = Settled.fulfilled r →
      r.status = 401 →
      fetchWithAuth T url options w =
        (Settled.rejected (JSError.new "Unauthorized"),
          w ++ [Effect.fetch url (fetchWithAuthInit (options.getD [])),
                Effect.dispatchEvent (CustomEvent.new "unauthorized"),
                Effect.consoleError [LogArg.str "Fetch error:",
                  LogArg.error (JSError.new "Unauthorized")]])) ∧
    (∀ e w1, fetchWithAuth T url options w = (Settled.rejected e, w1) →
      ∃ before, w1 = w ++ before ++
          [Effect.consoleError [LogArg.str "Fetch error:", LogArg.error e]] ∧
        before.countP Effect.isLog = 0 ∧
        (∀ e0, T w url (fetchWithAuthInit (options.getD [])) = Settled.rejected e0 →
          e = e0 ∧ before.countP Effect.isDispatch = 0)) := by
  refine ⟨fun e h => fetchWithAuth_rejected T url options w e h, ?_, ?_⟩
  · intro r h hs
    rw [fetchWithAuth_fulfilled T url options w r h]
    simp [hs]
  · intro e w1 hrun
    cases h : T w url (fetchWithAuthInit (options.getD [])) with
    | fulfilled r =>
      rw [fetchWithAuth_fulfilled T url options w r h] at hrun
      by_cases hs : r.status = 401
      · simp only [hs, if_true, Prod.mk.injEq, Settled.rejected.injEq] at hrun
        obtain ⟨he, hw⟩ := hrun
        subst he
        subst hw
        exact ⟨[Effect.fetch url (fetchWithAuthInit (options.getD [])),
          Effect.dispatchEvent (CustomEvent.new "unauthorized")], by simp, rfl,
          fun e0 h0 => by simp at h0⟩
      · simp [hs] at hrun
    | rejected e1 =>
      rw [fetchWithAuth_rejected T url options w e1 h] at hrun
      simp only [Prod.mk.injEq, Settled.rejected.injEq] at hrun
      obtain ⟨he, hw⟩ := hrun
      subst he
      subst hw
      exact ⟨[Effect.fetch url (fetchWithAuthInit (options.getD []))], by simp, rfl,
        fun e0 h0 => ⟨by simpa using h0, rfl⟩⟩

/-- C4 at concrete inputs: an unreachable network, and a 401 answer. -/
theorem C4_witness :
    fetchWithAuth (failWith networkError) "/api/aliases" none [] =
      (Settled.rejected networkError,
        [Effect.fetch "/api/aliases" (fetchWithAuthInit []),
         Effect.consoleError [LogArg.str "Fetch error:", LogArg.error networkError]]) ∧
    fetchWithAuth (respond unauthorized401) "/api/aliases" none [] =
      (Settled.rejected (JSError.new "Unauthorized"),
        [Effect.fetch "/api/aliases" (fetchWithAuthInit []),
         Effect.dispatchEvent (CustomEvent.new "unauthorized"),
         Effect.consoleError [LogArg.str "Fetch error:",
           LogArg.error (JSError.new "Unauthorized")]]) :=
  ⟨(C4_fetchWithAuth_failure_logged_and_rethrown (failWith networkError) "/api/aliases"
      none []).1 networkError rfl,
   (C4_fetchWithAuth_failure_logged_and_rethrown (respond unauthorized401) "/api/aliases"
      none []).2.1 unauthorized401 rfl rfl⟩

/-- C5: when the transport fails with an error `e`, `apiFetch` rejects with
that same `e`; the transport call is its only effect, so no page reload. -/
theorem C5_apiFetch_transport_failure_propagates (T : Transport) (url : String)
    (options : Option Obj) (w : List Effect) (e : JSError)
    (hT : T w url (apiFetchInit (options.getD [])) = Settled.rejected e) :
    apiFetch T url options w =
      (Settled.rejected e, w ++ [Effect.fetch url (apiFetchInit (options.getD []))]) ∧
    (effectsSince w (apiFetch T url options w)).countP Effect.isReload = 0 := by
  rw [apiFetch_rejected T url options w e hT]
  simp [effectsSince, Effect.isReload]

/-- C5 at a concrete input: an unreachable network. -/
theorem C5_witness :
    apiFetch (failWith networkError) "/api/aliases" (some ownHeaders) [] =
      (Settled.rejected networkError,
        [Effect.fetch "/api/aliases" (apiFetchInit ownHeaders)]) ∧
    (effectsSince [] (apiFetch (failWith networkError) "/api/aliases" (some ownHeaders)
      [])).countP Effect.isReload = 0 :=
  C5_apiFetch_transport_failure_propagates (failWith networkError) "/api/aliases"
    (some ownHeaders) [] networkError rfl

/-- C6, as stated, fails: the caller sets `credentials: 'omit'`, and the options
handed to the transport carry `credentials: 'include'`, not `'omit'`. -/
theorem C6_counterexample :
    Obj.get omitCredentials "credentials" = some (JSVal.str "omit") ∧
    apiFetch (respond pingOk) "/api/aliases" (some omitCredentials) [] =
      (Settled.fulfilled (some pingOk),
        [Effect.fetch "/api/aliases"
          [("method", JSVal.str "POST"), ("credentials", JSVal.str "include")]]) ∧
    Obj.get [("method", JSVal.str "POST"), ("credentials", JSVal.str "include")]
      "credentials" ≠ some (JSVal.str "omit") := by
  refine ⟨rfl, rfl, ?_⟩
  simp [Obj.get]

/-- C6, amended: in `apiFetch` the fixed `credentials: 'include'` is applied
after the caller-supplied options, so the caller cannot override it: for every
options object that sets credentials to some value `v`, the options handed to
the transport carry credentials = "include", which is `v` only when `v` is
"include". -/
theorem C6_apiFetch_credentials_not_overridable (T : Transport) (url : String)
    (options : Obj) (w : List Effect) (v : JSVal)
    (hv : Obj.get options "credentials" = some v) :
    (∃ rest, (apiFetch T url (some options) w).2 =
        w ++ Effect.fetch url (apiFetchInit options) :: rest ∧
      rest.countP Effect.isFetch = 0) ∧
    Obj.get options "credentials" = some v ∧
    Obj.get (apiFetchInit options) "credentials" = some (JSVal.str "include") ∧
    (Obj.get (apiFetchInit options) "credentials" = some v ↔ v = JSVal.str "include") := by
  refine ⟨apiFetch_log T url (some options) w, hv, get_apiFetchInit_credentials options, ?_⟩
  rw [get_apiFetchInit_credentials options]
  constructor
  · intro h
    exact (Option.some.inj h).symm
  · intro h
    rw [h]

/-- C6 amended, at a concrete input: the caller asks for `credentials: 'omit'`. -/
theorem C6_witness :
    (∃ rest, (apiFetch (respond pingOk) "/api/aliases" (some omitCredentials) []).2 =
        Effect.fetch "/api/aliases" (apiFetchInit omitCredentials) :: rest ∧
      rest.countP Effect.isFetch = 0) ∧
    Obj.get omitCredentials "credentials" = some (JSVal.str "omit") ∧
    Obj.get (apiFetchInit omitCredentials) "credentials" = some (JSVal.str "include") ∧
    (Obj.get (apiFetchInit omitCredentials) "credentials" = some (JSVal.str "omit") ↔
      JSVal.str "omit" = JSVal.str "include") :=
  C6_apiFetch_credentials_not_overridable (respond pingOk) "/api/aliases" omitCredentials []
    (JSVal.str "omit") rfl

/-- C7: whatever the caller options are (also when they set credentials to
another value), `apiFetch` calls the transport with options that carry
credentials = "include", and every other key reads exactly as in the caller
options: the caller value when the caller set it, absent when not (so no
default headers). -/
theorem C7_apiFetch_forces_credentials (T : Transport) (url : String)
    (options : Option Obj) (w : List Effect) :
    (∃ rest, (apiFetch T url options w).2 =
        w ++ Effect.fetch url (apiFetchInit (options.getD [])) :: rest ∧
      rest.countP Effect.isFetch = 0) ∧
    Obj.get (apiFetchInit (options.getD [])) "credentials" = some (JSVal.str "include") ∧
    (∀ k, k ≠ "credentials" →
      Obj.get (apiFetchInit (options.getD [])) k = Obj.get (options.getD []) k) ∧
    (∀ o, options = some o → Obj.get o "headers" = none →
      Obj.get (apiFetchInit (options.getD [])) "headers" = none) :=
  ⟨apiFetch_log T url options w, get_apiFetchInit_credentials _,
   fun k hk => get_apiFetchInit_other _ k hk,
   fun o ho hh => by
    subst ho
    rw [get_apiFetchInit_other _ "headers" (by decide)]
    exact hh⟩

/-- C7 at a concrete input: the caller asks for `credentials: 'omit'` and
`method: 'POST'`, and sets no headers. -/
theorem C7_witness :
    Obj.get (apiFetchInit omitCredentials) "credentials" = some (JSVal.str "include") ∧
    Obj.get (apiFetchInit omitCredentials) "method" = some (JSVal.str "POST") ∧
    Obj.get (apiFetchInit omitCredentials) "headers" = none :=
  ⟨(C7_apiFetch_forces_credentials (respond pingOk) "/api/aliases" (some omitCredentials)
      []).2.1,
   ((C7_apiFetch_forces_credentials (respond pingOk) "/api/aliases" (some omitCredentials)
      []).2.2.1 "method" (by decide)).trans rfl,
   (C7_apiFetch_forces_credentials (respond pingOk) "/api/aliases" (some omitCredentials)
      []).2.2.2 omitCredentials rfl rfl⟩

/-- C8: `fetchWithAuth` calls the transport with the defaults
`{credentials: 'include', headers: {'Content-Type': 'application/json'}}`
overlaid key by key with the caller options: a key the caller sets carries the
caller value (for `headers`, exactly the caller object, not a merge with the
default one; for `credentials`, the caller value); when the caller omits
`headers` or `credentials` the default is sent; any other key reads exactly as
in the caller options. -/
theorem C8_fetchWithAuth_options_overlay_defaults (T : Transport) (url : String)
    (options : Option Obj) (w : List Effect) :
    (∃ rest, (fetchWithAuth T url options w).2 =
        w ++ Effect.fetch url (fetchWithAuthInit (options.getD [])) :: rest ∧
      rest.countP Effect.isFetch = 0) ∧
    (∀ k v, Obj.get (options.getD []) k = some v →
      Obj.get (fetchWithAuthInit (options.getD [])) k = some v) ∧
    (Obj.get (options.getD []) "headers" = none →
      Obj.get (fetchWithAuthInit (options.getD [])) "headers" =
        some (JSVal.obj [("Content-Type", JSVal.str "application/json")])) ∧
    (Obj.get (options.getD []) "credentials" = none →
      Obj.get (fetchWithAuthInit (options.getD [])) "credentials" =
        some (JSVal.str "include")) ∧
    (∀ h, Obj.get (options.getD []) "headers" = some (JSVal.obj h) →
      Obj.get (fetchWithAuthInit (options.getD [])) "headers" = some (JSVal.obj h)) ∧
    (∀ k, k ≠ "credentials" → k ≠ "headers" →
      Obj.get (fetchWithAuthInit (options.getD [])) k = Obj.get (options.getD []) k) := by
  refine ⟨fetchWithAuth_log T url options w, ?_, ?_, ?_, ?_, ?_⟩
  · intro k v h
    rw [get_fetchWithAuthInit, h]
    rfl
  · intro h
    rw [get_fetchWithAuthInit, h]
    rfl
  · intro h
    rw [get_fetchWithAuthInit, h]
    rfl
  · intro h hh
    rw [get_fetchWithAuthInit, hh]
    rfl
  · intro k hc hh
    rw [get_fetchWithAuthInit]
    have e : Obj.get [("credentials", JSVal.str "include"),
        ("headers", JSVal.obj [("Content-Type", JSVal.str "application/json")])] k = none := by
      simp [Obj.get, Ne.symm hc, Ne.symm hh]
    rw [e]
    cases Obj.get (options.getD []) k <;> rfl

/-- C8 at concrete inputs: a caller with a headers object of its own (the
default Content-Type is gone, credentials default is kept), and a caller with
no options (both defaults are sent). -/
theorem C8_witness :
    (Obj.get (fetchWithAuthInit ownHeaders) "headers" =
        some (JSVal.obj [("Accept", JSVal.str "text/plain")]) ∧
      Obj.get [("Accept", JSVal.str "text/plain")] "Content-Type" = none ∧
      Obj.get (fetchWithAuthInit ownHeaders) "credentials" = some (JSVal.str "include") ∧
      Obj.get (fetchWithAuthInit ownHeaders) "method" = some (JSVal.str "POST")) ∧
    (Obj.get (fetchWithAuthInit []) "headers" =
        some (JSVal.obj [("Content-Type", JSVal.str "application/json")]) ∧
      Obj.get (fetchWithAuthInit []) "credentials" = some (JSVal.str "include")) :=
  ⟨⟨(C8_fetchWithAuth_options_overlay_defaults (respond pingOk) "/api/aliases"
        (some ownHeaders) []).2.1 "headers" _ rfl,
    rfl,
    (C8_fetchWithAuth_options_overlay_defaults (respond pingOk) "/api/aliases"
        (some ownHeaders) []).2.2.2.1 rfl,
    (C8_fetchWithAuth_options_overlay_defaults (respond pingOk) "/api/aliases"
        (some ownHeaders) []).2.1 "method" _ rfl⟩,
   ⟨(C8_fetchWithAuth_options_overlay_defaults (respond pingOk) "/api/aliases"
        none []).2.2.1 rfl,
    (C8_fetchWithAuth_options_overlay_defaults (respond pingOk) "/api/aliases"
        none []).2.2.2.1 rfl⟩⟩

/-- C9: when the transport resolves with a response whose status is not 401,
the transport call is the only effect of either wrapper: `fetchWithAuth` logs
nothing and dispatches no event, `apiFetch` reloads nothing. -/
theorem C9_success_path_no_side_effects (T : Transport) (url : String)
    (options : Option Obj) (w : List Effect) (r : Response) (h401 : r.status ≠ 401) :
    (T w url (fetchWithAuthInit (options.getD [])) = Settled.fulfilled r →
      fetchWithAuth T url options w =
        (Settled.fulfilled r, w ++ [Effect.fetch url (fetchWithAuthInit (options.getD []))]) ∧
      (effectsSince w (fetchWithAuth T url options w)).countP Effect.isLog = 0 ∧
      (effectsSince w (fetchWithAuth T url options w)).countP Effect.isDispatch = 0) ∧
    (T w url (apiFetchInit (options.getD [])) = Settled.fulfilled r →
      apiFetch T url options w =
        (Settled.fulfilled (some r), w ++ [Effect.fetch url (apiFetchInit (options.getD []))]) ∧
      (effectsSince w (apiFetch T url options w)).countP Effect.isReload = 0) := by
  constructor
  · intro h
    rw [fetchWithAuth_fulfilled T url options w r h]
    simp [h401, effectsSince, Effect.isLog, Effect.isDispatch]
  · intro h
    rw [apiFetch_fulfilled T url options w r h]
    simp [h401, effectsSince, Effect.isReload]

/-- C9 at the scenario of the specification: `fetchWithAuth("/api/ping")` with
no options against a status-200 response with body `{"ok":true}` returns a
response with status 200 and logs nothing. -/
theorem C9_witness :
    pingOk.status ≠ 401 ∧
    (fetchWithAuth (respond pingOk) "/api/ping" none [] =
        (Settled.fulfilled pingOk, [Effect.fetch "/api/ping" (fetchWithAuthInit [])]) ∧
      (effectsSince [] (fetchWithAuth (respond pingOk) "/api/ping" none [])).countP
        Effect.isLog = 0 ∧
      (effectsSince [] (fetchWithAuth (respond pingOk) "/api/ping" none [])).countP
        Effect.isDispatch = 0) ∧
    pingOk.status = 200 :=
  ⟨by decide,
   (C9_success_path_no_side_effects (respond pingOk) "/api/ping" none [] pingOk
      (by decide)).1 rfl,
   rfl⟩

/-- C10: every run of `apiFetch` or `fetchWithAuth` calls the transport exactly
once, first, with the caller URL unchanged, whatever the outcome; and the
settlement and the effects a run adds depend only on the arguments and on the
transport answer to that call: runs from different logs, or against different
transports, that get the same answer settle alike and add the same effects. -/
theorem C10_one_transport_call_no_hidden_state (T : Transport) (url : String)
    (options : Option Obj) (w : List Effect) :
    (∃ rest, (apiFetch T url options w).2 =
        w ++ Effect.fetch url (apiFetchInit (options.getD [])) :: rest ∧
      rest.countP Effect.isFetch = 0 ∧
      (effectsSince w (apiFetch T url options w)).countP Effect.isFetch = 1) ∧
    (∃ rest, (fetchWithAuth T url options w).2 =
        w ++ Effect.fetch url (fetchWithAuthInit (options.getD [])) :: rest ∧
      rest.countP Effect.isFetch = 0 ∧
      (effectsSince w (fetchWithAuth T url options w)).countP Effect.isFetch = 1) ∧
    (∀ (T2 : Transport) (w2 : List Effect),
      T2 w2 url (apiFetchInit (options.getD [])) = T w url (apiFetchInit (options.getD [])) →
      (apiFetch T2 url options w2).1 = (apiFetch T url options w).1 ∧
      effectsSince w2 (apiFetch T2 url options w2) =
        effectsSince w (apiFetch T url options w)) ∧
    (∀ (T2 : Transport) (w2 : List Effect),
      T2 w2 url (fetchWithAuthInit (options.getD [])) =
        T w url (fetchWithAuthInit (options.getD [])) →
      (fetchWithAuth T2 url options w2).1 = (fetchWithAuth T url options w).1 ∧
      effectsSince w2 (fetchWithAuth T2 url options w2) =
        effectsSince w (fetchWithAuth T url options w)) := by
  refine ⟨?_, ?_, ?_, ?_⟩
  · obtain ⟨rest, h1, h2⟩ := apiFetch_log T url options w
    refine ⟨rest, h1, h2, ?_⟩
    rw [effectsSince, h1]
    simp [List.countP_cons, h2, Effect.isFetch]
  · obtain ⟨rest, h1, h2⟩ := fetchWithAuth_log T url options w
    refine ⟨rest, h1, h2, ?_⟩
    rw [effectsSince, h1]
    simp [List.countP_cons, h2, Effect.isFetch]
  · intro T2 w2 h
    cases hT : T w url (apiFetchInit (options.getD [])) with
    | fulfilled r =>
      rw [hT] at h
      rw [apiFetch_fulfilled T url options w r hT, apiFetch_fulfilled T2 url options w2 r h]
      by_cases hs : r.status = 401 <;> simp [hs, effectsSince]
    | rejected e =>
      rw [hT] at h
      rw [apiFetch_rejected T url options w e hT, apiFetch_rejected T2 url options w2 e h]
      simp [effectsSince]
  · intro T2 w2 h
    cases hT : T w url (fetchWithAuthInit (options.getD [])) with
    | fulfilled r =>
      rw [hT] at h
      rw [fetchWithAuth_fulfilled T url options w r hT,
        fetchWithAuth_fulfilled T2 url options w2 r h]
      by_cases hs : r.status = 401 <;> simp [hs, effectsSince]
    | rejected e =>
      rw [hT] at h
      rw [fetchWithAuth_rejected T url options w e hT,
        fetchWithAuth_rejected T2 url options w2 e h]
      simp [effectsSince]

/-- C10 at a concrete input: against a transport that answers 401 to the first
call and 200 to any later one, each wrapper stops after the one call that got
the 401 (no retry); and a second run of `fetchWithAuth`, from the log the first
one left, against a transport that still answers 401, settles like the first
and adds the same effects. -/
theorem C10_witness :
    (effectsSince [] (apiFetch expiredThenOk "/api/aliases" none [])).countP
      Effect.isFetch = 1 ∧
    apiFetch expiredThenOk "/api/aliases" none [] =
      (Settled.fulfilled none, [Effect.fetch "/api/aliases" (apiFetchInit []), Effect.reload]) ∧
    (effectsSince [] (fetchWithAuth expiredThenOk "/api/aliases" none [])).countP
      Effect.isFetch = 1 ∧
    ((fetchWithAuth (respond unauthorized401) "/api/aliases" none
        (fetchWithAuth expiredThenOk "/api/aliases" none []).2).1 =
      (fetchWithAuth expiredThenOk "/api/aliases" none []).1 ∧
     effectsSince (fetchWithAuth expiredThenOk "/api/aliases" none []).2
        (fetchWithAuth (respond unauthorized401) "/api/aliases" none
          (fetchWithAuth expiredThenOk "/api/aliases" none []).2) =
      effectsSince [] (fetchWithAuth expiredThenOk "/api/aliases" none [])) :=
  ⟨(C10_one_transport_call_no_hidden_state expiredThenOk "/api/aliases" none []).1.elim
      (fun _ h => h.2.2),
   rfl,
   (C10_one_transport_call_no_hidden_state expiredThenOk "/api/aliases" none []).2.1.elim
      (fun _ h => h.2.2),
   (C10_one_transport_call_no_hidden_state expiredThenOk "/api/aliases" none []).2.2.2
      (respond unauthorized401) (fetchWithAuth expiredThenOk "/api/aliases" none []).2 rfl⟩

end Ovoo
